import Mathlib

/-!
Shallow embedding of `hgserver/hgmolib/hgmolib/generate_hg_s3_bundles.py`.

The script generates Mercurial bundle files for a repository, uploads them
to a set of S3 and GCS buckets with a bounded retry loop, and assembles a
`clonebundles.manifest` listing the bundles in client-preference order,
plus a fleet-wide HTML index and JSON manifest.

Pure data (the static configuration tables, bundle path computation, the
manifest assembly, the JSON manifest construction) is embedded directly as
Lean functions.  Effectful code (subprocess invocations, filesystem
operations, network uploads) is embedded as functions that return an
explicit trace of the actions the Python code would perform, with the
environment (filesystem contents, per-attempt network outcomes) passed in
as explicit parameters.
-/

namespace GenerateHgS3Bundles

/-- Path of the Mercurial binary used for bundle generation
(`HG` in the source). -/
def HG : String := "/var/hg/venv_bundles/bin/hg"

/-- The types of bundles to generate, with the extra `hg` arguments used to
create each (`CREATES` in the source; the third tuple component there is
always the empty options dict, so it is dropped here).  Defined in the
order the generation loop iterates. -/
def CREATES : List (String × List String) :=
  [("gzip-v2", ["bundle", "-a", "-t", "gzip-v2"]),
   ("zstd", ["bundle", "-a", "-t", "zstd-v2"]),
   ("zstd-max", ["--config", "experimental.bundlecomplevel=20",
                 "bundle", "-a", "-t", "zstd-v2"]),
   ("packed1", ["debugcreatestreamclonebundle"])]

/-- Order in which bundle types are listed in the clonebundles manifest,
with the params column of each line (`CLONEBUNDLES_ORDER` in the source). -/
def CLONEBUNDLES_ORDER : List (String × String) :=
  [("zstd-max", "BUNDLESPEC=zstd-v2"),
   ("zstd", "BUNDLESPEC=zstd-v2"),
   ("gzip-v2", "BUNDLESPEC=gzip-v2"),
   ("packed1", "BUNDLESPEC=none-packed1;requirements%3Dgeneraldelta%2Crevlogv1")]

/-- S3 hostname, bucket and region of each S3 upload target
(`S3_HOSTS` in the source). -/
def S3_HOSTS : List (String × String × String) :=
  [("s3-us-west-2.amazonaws.com", "moz-hg-bundles-us-west-2", "us-west-2"),
   ("s3-us-west-1.amazonaws.com", "moz-hg-bundles-us-west-1", "us-west-1"),
   ("s3-us-east-2.amazonaws.com", "moz-hg-bundles-us-east-2", "us-east-2"),
   ("s3-external-1.amazonaws.com", "moz-hg-bundles-us-east-1", "us-east-1"),
   ("s3-eu-central-1.amazonaws.com", "moz-hg-bundles-eu-central-1", "eu-central-1")]

/-- GCP bucket name and region of each GCS upload target
(`GCP_HOSTS` in the source). -/
def GCP_HOSTS : List (String × String) :=
  [("moz-hg-bundles-gcp-us-central1", "us-central1")]

/-- Endpoint URL for GCS (`GCS_ENDPOINT` in the source). -/
def GCS_ENDPOINT : String := "https://storage.googleapis.com"

/-- CDN URL fronting the bundles (`CDN` in the source). -/
def CDN : String := "https://hg.cdn.mozilla.net"

/-- Root directory holding generated bundle files
(`BUNDLE_ROOT` in the source). -/
def BUNDLE_ROOT : String := "/repo/hg/bundles"

/-- Embedding of Python `str.startswith`, via the character list so that
concrete instances reduce in the kernel. -/
def startswith (s p : String) : Bool := p.data.isPrefixOf s.data

/-- Embedding of Python `str.endswith`, via the character list so that
concrete instances reduce in the kernel. -/
def endswith (s p : String) : Bool := p.data.isSuffixOf s.data

/-- Embedding of Python `os.path.join(a, b)` for POSIX paths: an absolute
second component replaces the first; otherwise a separator is inserted
unless the first component is empty or already ends with one. -/
def os_path_join (a b : String) : String :=
  if startswith b "/" then b
  else if a == "" || endswith a "/" then a ++ b
  else a ++ "/" ++ b

/-- Embedding of `bundle_paths(root, repo, tag, typ)`: the local final path
and the remote object key of one bundle.  The basename is
`tag.typ.hg` (revision tag first, then bundle type). -/
def bundle_paths (root repo tag typ : String) : String × String :=
  let basename := tag ++ "." ++ typ ++ ".hg"
  let final_path := os_path_join root basename
  let remote_path := repo ++ "/" ++ basename
  (final_path, remote_path)

/-! ## Upload model

Each call to `upload_to_s3` / `upload_to_gcpstorage` runs a loop of at
most 3 attempts.  An attempt either reaches the existence check and then
performs the refresh or upload action (`Outcome.ok exists`), raises a
network-level `socket.error` somewhere inside the `try` block
(`Outcome.netErr`, caught: the loop sleeps 15 seconds and retries), or
raises any other exception (`Outcome.otherErr`, e.g. a non-404
`ClientError` re-raised by the existence check: not caught, so it
propagates out of the function at once).  The outcome of attempt `n`
(1-based) is supplied by an oracle `behavior : Nat → Outcome`. -/

/-- Outcome of one attempt of an upload loop. -/
inductive Outcome
  | netErr
  | otherErr
  | ok (ex : Bool)
deriving DecidableEq, Repr

/-- Observable actions an upload performs. -/
inductive UpAct
  | attemptStart (n : Nat)
  | copyReplaceMetadata (bucket remote : String)
  | uploadFile (bucket remote local_path : String)
  | patchEventHold (bucket remote : String) (hold : Bool)
  | uploadFromFilename (bucket remote local_path : String)
  | sleep (secs : Nat)
deriving DecidableEq, Repr

/-- Result of an upload call. -/
inductive UpResult
  | success
  | exhausted (bucket remote : String) (attempts : Nat)
  | propagated
deriving DecidableEq, Repr

/-- Loop body of `upload_to_s3`: `attempt = 0; while attempt < 3:` with
`attempt += 1` at the top of each iteration.  `fuel` is `3 - attempt`.
On `socket.error` the iteration prints, sleeps 15 seconds and loops; when
the loop exits, an exception naming the bucket, the key and the final
value of `attempt` is raised (`UpResult.exhausted`). -/
def upload_to_s3_loop (bucket local_path remote : String) (behavior : Nat → Outcome) :
    Nat → Nat → List UpAct × UpResult
  | 0, attempt => ([], .exhausted bucket remote attempt)
  | fuel + 1, attempt =>
    let a := attempt + 1
    match behavior a with
    | .ok true => ([.attemptStart a, .copyReplaceMetadata bucket remote], .success)
    | .ok false => ([.attemptStart a, .uploadFile bucket remote local_path], .success)
    | .otherErr => ([.attemptStart a], .propagated)
    | .netErr =>
      let r := upload_to_s3_loop bucket local_path remote behavior fuel a
      (.attemptStart a :: .sleep 15 :: r.1, r.2)

/-- Embedding of `upload_to_s3(region_name, bucket_name, local_path,
remote_path)`: if the object exists, a self-copy with
`MetadataDirective=REPLACE` refreshes its expiration clock; otherwise the
local file is uploaded with `key.upload_file`. -/
def upload_to_s3 (bucket local_path remote : String) (behavior : Nat → Outcome) :
    List UpAct × UpResult :=
  upload_to_s3_loop bucket local_path remote behavior 3 0

/-- Loop body of `upload_to_gcpstorage`: `for _attempt in range(3)` with a
`for ... else` clause raising an exception naming the bucket, the key and
the literal count 3 once all iterations fail. -/
def upload_to_gcpstorage_loop (bucket local_path remote : String) (behavior : Nat → Outcome) :
    Nat → Nat → List UpAct × UpResult
  | 0, _ => ([], .exhausted bucket remote 3)
  | fuel + 1, i =>
    let a := i + 1
    match behavior a with
    | .ok true =>
      ([.attemptStart a, .patchEventHold bucket remote true,
        .patchEventHold bucket remote false], .success)
    | .ok false => ([.attemptStart a, .uploadFromFilename bucket remote local_path], .success)
    | .otherErr => ([.attemptStart a], .propagated)
    | .netErr =>
      let r := upload_to_gcpstorage_loop bucket local_path remote behavior fuel a
      (.attemptStart a :: .sleep 15 :: r.1, r.2)

/-- Embedding of `upload_to_gcpstorage(region_name, bucket_name,
local_path, remote_path)`: if the blob exists, an event-based hold is set
and then cleared (two `blob.patch()` calls) to reset the retention clock;
otherwise the local file is uploaded with `blob.upload_from_filename`. -/
def upload_to_gcpstorage (bucket local_path remote : String) (behavior : Nat → Outcome) :
    List UpAct × UpResult :=
  upload_to_gcpstorage_loop bucket local_path remote behavior 3 0

/-- Whether an upload action is the start of an attempt. -/
def UpAct.isAttempt : UpAct → Bool
  | .attemptStart _ => true
  | _ => false

/-- Whether an upload action transfers file content to the backend. -/
def UpAct.isContentUpload : UpAct → Bool
  | .uploadFile _ _ _ => true
  | .uploadFromFilename _ _ _ => true
  | _ => false

/-! ## Manifest assembly -/

/-- The CREATES entries relevant to one run: the loop in
`generate_bundles` skips `zstd` when `zstd_max` is set and skips
`zstd-max` when it is not. -/
def relevant_creates (zstd_max : Bool) : List (String × List String) :=
  CREATES.filter fun c => !((c.1 == "zstd" && zstd_max) || (c.1 == "zstd-max" && !zstd_max))

/-- Bundle types relevant to one run, in the order the generation loop
records them. -/
def relevant_types (zstd_max : Bool) : List String :=
  (relevant_creates zstd_max).map (·.1)

/-- CDN-fronted manifest line (the format string
`CDN/remote_path params REQUIRESNI=true cdn=true` of the source). -/
def cdn_line (remote_path params : String) : String :=
  CDN ++ "/" ++ remote_path ++ " " ++ params ++ " REQUIRESNI=true cdn=true"

/-- S3 manifest line (the format string
`https://host/bucket/remote_path params ec2region=name` of the source). -/
def s3_line (host bucket remote_path params region : String) : String :=
  "https://" ++ host ++ "/" ++ bucket ++ "/" ++ remote_path ++ " " ++ params
    ++ " ec2region=" ++ region

/-- GCS manifest line (the format string
`GCS_ENDPOINT/bucket/remote_path params gceregion=name` of the source). -/
def gcs_line (bucket remote_path params region : String) : String :=
  GCS_ENDPOINT ++ "/" ++ bucket ++ "/" ++ remote_path ++ " " ++ params
    ++ " gceregion=" ++ region

/-- Lines the manifest loop body appends for one `(t, params)` entry of
`CLONEBUNDLES_ORDER`: the CDN-fronted line first, then one line per S3
host annotated `ec2region=`, then one line per GCP host annotated
`gceregion=`. -/
def clonebundles_lines (root repo tip t params : String) : List String :=
  let remote_path := (bundle_paths root repo tip t).2
  cdn_line remote_path params ::
  ((S3_HOSTS.map fun h => s3_line h.1 h.2.1 remote_path params h.2.2) ++
   (GCP_HOSTS.map fun g => gcs_line g.1 remote_path params g.2))

/-- Embedding of the `clonebundles_manifest` assembly loop of
`generate_bundles`: iterate `CLONEBUNDLES_ORDER`, skip types not in
`bundle_types`, and append the lines for each retained type. -/
def clonebundles_manifest (root repo tip : String) (bundle_types : List String) :
    List String :=
  (CLONEBUNDLES_ORDER.filter fun p => bundle_types.contains p.1).flatMap fun p =>
    clonebundles_lines root repo tip p.1 p.2

/-! ## Orchestrator model

`generate_bundles(repo, upload, copyfrom, zstd_max)` is embedded as a
function from an explicit environment (`World`: what `os.path.exists`
returns, the tip revision the `hg log` query reports, whether the
`.hg/requires` file lists `generaldelta`, file sizes, and the directory
listing of the repository's bundle directory) to the ordered trace of
effectful actions the function performs plus its return value (the
`paths` mapping).  Failures (the `assert` statements and the
non-generaldelta exception) are an `Except.error`. -/

/-- Environment a `generate_bundles` run observes. -/
structure World where
  file_exists : String → Bool
  tip : String
  generaldelta : Bool
  getsize : String → Nat
  dirlist : List String

/-- Observable effectful actions of `generate_bundles`. -/
inductive Act
  | backupManifest (src dst : String)
  | copyManifest (src dst : String)
  | replicateSync (cwd : String)
  | makedirs (path : String) (mode : Nat)
  | unlink (path : String)
  | genBundle (repo temp final : String) (args : List String)
  | s3Upload (region bucket local_path remote : String)
  | gcsUpload (region bucket local_path remote : String)
  | writeManifest (path : String) (lines : List String)
  | chmod (path : String) (mode : Nat)
deriving DecidableEq, Repr

/-- Whether an action is a bundle-creation invocation of the external
`hg` tool. -/
def Act.isGenBundle : Act → Bool
  | .genBundle _ _ _ _ => true
  | _ => false

/-- Whether an action uploads a file to a storage backend. -/
def Act.isUpload : Act → Bool
  | .s3Upload _ _ _ _ => true
  | .gcsUpload _ _ _ _ => true
  | _ => false

/-- Mirror branch of `generate_bundles` (the `if copyfrom:` block): back
up any pre-existing destination manifest, copy the source repository's
manifest over the destination's, run `hg replicatesync`, and return the
empty `paths` mapping. -/
def generate_bundles_mirror (w : World) (repo cf : String) :
    List Act × List (String × String × Nat) :=
  let source_repo := os_path_join "/repo/hg/mozilla" cf
  let dest_repo := os_path_join "/repo/hg/mozilla" repo
  let source := os_path_join (os_path_join source_repo ".hg") "clonebundles.manifest"
  let dest := os_path_join (os_path_join dest_repo ".hg") "clonebundles.manifest"
  let backup := os_path_join (os_path_join dest_repo ".hg") "clonebundles.manifest.last"
  ((if w.file_exists dest then [.backupManifest dest backup] else []) ++
   [.copyManifest source dest, .replicateSync dest_repo], [])

/-- Primary branch of `generate_bundles` after the generaldelta check:
create the bundle directory, prune stale files, generate the missing
relevant bundles, optionally upload every relevant bundle to every S3 and
GCP host, rewrite the clonebundles manifest (backing up a pre-existing
one), and return the `paths` mapping. -/
def generate_bundles_primary (w : World) (repo : String) (upload zstd_max : Bool) :
    List Act × List (String × String × Nat) :=
  let repo_full := os_path_join "/repo/hg/mozilla" repo
  let tip := w.tip
  let bundle_path := os_path_join BUNDLE_ROOT repo
  let pruneActs : List Act :=
    (w.dirlist.filter fun p => !(startswith p "." || startswith p tip)).map
      fun p => .unlink (os_path_join bundle_path p)
  let creates := relevant_creates zstd_max
  let bundles : List (String × String × String) :=
    creates.map fun c => (c.1, bundle_paths bundle_path repo tip c.1)
  let genActs : List Act :=
    (creates.filter fun c =>
        !w.file_exists (bundle_paths bundle_path repo tip c.1).1).map
      fun c =>
        let fp := (bundle_paths bundle_path repo tip c.1).1
        .genBundle repo_full (fp ++ ".tmp") fp c.2
  let uploadActs : List Act :=
    if upload then
      (S3_HOSTS.flatMap fun h =>
        bundles.map fun b => .s3Upload h.2.2 h.2.1 b.2.1 b.2.2) ++
      (GCP_HOSTS.flatMap fun g =>
        bundles.map fun b => .gcsUpload g.2 g.1 b.2.1 b.2.2)
    else []
  let paths : List (String × String × Nat) :=
    bundles.map fun b => (b.1, b.2.2, w.getsize b.2.1)
  let manifest := clonebundles_manifest bundle_path repo tip (bundles.map (·.1))
  let clonebundles_path :=
    os_path_join (os_path_join repo_full ".hg") "clonebundles.manifest"
  let backup_path :=
    os_path_join (os_path_join repo_full ".hg") "clonebundles.manifest.old"
  let manifestActs : List Act :=
    (if w.file_exists clonebundles_path
     then [.backupManifest clonebundles_path backup_path] else []) ++
    [.writeManifest clonebundles_path manifest,
     .chmod clonebundles_path 0o664,
     .replicateSync repo_full]
  (.makedirs bundle_path 0o755 :: pruneActs ++ genActs ++ uploadActs
     ++ manifestActs,
   paths)

/-- Embedding of `generate_bundles(repo, upload=True, copyfrom=None,
zstd_max=False)`.  Returns the ordered action trace and the `paths`
mapping from bundle type to `(remote_path, size)`. -/
def generate_bundles (w : World) (repo : String) (upload : Bool)
    (copyfrom : Option String) (zstd_max : Bool) :
    Except String (List Act × List (String × String × Nat)) :=
  if startswith repo "/" then .error "assert failed: os.path.isabs(repo)" else
  match copyfrom with
  | some cf =>
    if startswith cf "/" then .error "assert failed: os.path.isabs(copyfrom)" else
    .ok (generate_bundles_mirror w repo cf)
  | none =>
    if !w.generaldelta then
      .error ("non-generaldelta repo not supported: "
                ++ os_path_join "/repo/hg/mozilla" repo)
    else
      .ok (generate_bundles_primary w repo upload zstd_max)

/-! ## Fleet index and JSON manifest -/

/-- One `put_object` call made by `upload_index` or
`upload_json_manifest`. -/
structure PutObject where
  bucket : String
  key : String
  body : String
  contentType : String
  cacheControl : String
deriving DecidableEq, Repr

/-- Embedding of `upload_index(html)`: one `put_object` per entry of
`S3_HOSTS`, in order. -/
def upload_index (html : String) : List PutObject :=
  S3_HOSTS.map fun h =>
    { bucket := h.2.1, key := "index.html", body := html,
      contentType := "text/html", cacheControl := "max-age=60" }

/-- Embedding of `upload_json_manifest(data)`: one `put_object` per entry
of `S3_HOSTS`, in order. -/
def upload_json_manifest (data : String) : List PutObject :=
  S3_HOSTS.map fun h =>
    { bucket := h.2.1, key := "bundles.json", body := data,
      contentType := "application/json", cacheControl := "max-age=60" }

/-- One value of the fleet JSON manifest: the remote path and size of one
bundle. -/
structure JsonEntry where
  path : String
  size : Nat
deriving DecidableEq, Repr

/-- Embedding of the dict `d` built by `generate_json_manifest(repos)`
before serialization: repositories with an empty bundle mapping are
skipped (`if not bundles: continue`); every other repository maps to its
bundle types with path and size. -/
def generate_json_manifest
    (repos : List (String × List (String × String × Nat))) :
    List (String × List (String × JsonEntry)) :=
  (repos.filter fun p => !p.2.isEmpty).map fun p =>
    (p.1, p.2.map fun b => (b.1, { path := b.2.1, size := b.2.2 }))

/-! ## Helper lemmas -/

/-- Each run of the S3 upload loop starts at most `fuel` attempts. -/
theorem upload_to_s3_loop_attempts_le (bucket local_path remote : String)
    (behavior : Nat → Outcome) :
    ∀ fuel attempt,
      ((upload_to_s3_loop bucket local_path remote behavior fuel attempt).1.countP
        fun a => a.isAttempt) ≤ fuel := by
  intro fuel
  induction fuel with
  | zero => intro attempt; simp [upload_to_s3_loop]
  | succ n ih =>
    intro attempt
    simp only [upload_to_s3_loop]
    cases h : behavior (attempt + 1) with
    | netErr =>
      have := ih (attempt + 1)
      simp [h, List.countP_cons, UpAct.isAttempt] at this ⊢
      omega
    | otherErr => simp [h, List.countP_cons, UpAct.isAttempt]
    | ok ex => cases ex <;> simp [h, List.countP_cons, UpAct.isAttempt]

/-- Each run of the GCS upload loop starts at most `fuel` attempts. -/
theorem upload_to_gcpstorage_loop_attempts_le (bucket local_path remote : String)
    (behavior : Nat → Outcome) :
    ∀ fuel attempt,
      ((upload_to_gcpstorage_loop bucket local_path remote behavior fuel attempt).1.countP
        fun a => a.isAttempt) ≤ fuel := by
  intro fuel
  induction fuel with
  | zero => intro attempt; simp [upload_to_gcpstorage_loop]
  | succ n ih =>
    intro attempt
    simp only [upload_to_gcpstorage_loop]
    cases h : behavior (attempt + 1) with
    | netErr =>
      have := ih (attempt + 1)
      simp [h, List.countP_cons, UpAct.isAttempt] at this ⊢
      omega
    | otherErr => simp [h, List.countP_cons, UpAct.isAttempt]
    | ok ex => cases ex <;> simp [h, List.countP_cons, UpAct.isAttempt]

/-! ## Claims -/

/-- Claim C1: for both backend upload functions, a network-level (socket)
failure on every attempt produces exactly 3 attempts with a 15-second
sleep between consecutive attempts and ends in an upload-exhausted error
naming the bucket, the remote key, and the attempt count 3; a non-network
failure propagates immediately, with no retry and no sleep (shown both at
the first attempt and after one transient failure); and no behavior ever
produces more than 3 attempts. -/
theorem claim_C1_upload_retry_policy (bucket local_path remote : String)
    (behavior : Nat → Outcome) :
    ((∀ n, behavior n = .netErr) →
      upload_to_s3 bucket local_path remote behavior =
        ([.attemptStart 1, .sleep 15, .attemptStart 2, .sleep 15,
          .attemptStart 3, .sleep 15], .exhausted bucket remote 3) ∧
      upload_to_gcpstorage bucket local_path remote behavior =
        ([.attemptStart 1, .sleep 15, .attemptStart 2, .sleep 15,
          .attemptStart 3, .sleep 15], .exhausted bucket remote 3)) ∧
    (behavior 1 = .otherErr →
      upload_to_s3 bucket local_path remote behavior =
        ([.attemptStart 1], .propagated) ∧
      upload_to_gcpstorage bucket local_path remote behavior =
        ([.attemptStart 1], .propagated)) ∧
    (behavior 1 = .netErr → behavior 2 = .otherErr →
      upload_to_s3 bucket local_path remote behavior =
        ([.attemptStart 1, .sleep 15, .attemptStart 2], .propagated) ∧
      upload_to_gcpstorage bucket local_path remote behavior =
        ([.attemptStart 1, .sleep 15, .attemptStart 2], .propagated)) ∧
    ((upload_to_s3 bucket local_path remote behavior).1.countP
      fun a => a.isAttempt) ≤ 3 ∧
    ((upload_to_gcpstorage bucket local_path remote behavior).1.countP
      fun a => a.isAttempt) ≤ 3 := by
  refine ⟨fun h => ?_, fun h => ?_, fun h1 h2 => ?_,
          upload_to_s3_loop_attempts_le bucket local_path remote behavior 3 0,
          upload_to_gcpstorage_loop_attempts_le bucket local_path remote behavior 3 0⟩
  · constructor <;>
      simp [upload_to_s3, upload_to_s3_loop, upload_to_gcpstorage,
            upload_to_gcpstorage_loop, h 1, h 2, h 3]
  · constructor <;>
      simp [upload_to_s3, upload_to_s3_loop, upload_to_gcpstorage,
            upload_to_gcpstorage_loop, h]
  · constructor <;>
      simp [upload_to_s3, upload_to_s3_loop, upload_to_gcpstorage,
            upload_to_gcpstorage_loop, h1, h2]

/-- Claim C1 witness: at concrete inputs, an always-failing network gives
3 attempts and the exhausted error, and an immediate non-network error
propagates at once. -/
theorem claim_C1_upload_retry_policy_witness :
    (upload_to_s3 "bkt" "/tmp/f" "repo/f.hg" (fun _ => .netErr) =
      ([.attemptStart 1, .sleep 15, .attemptStart 2, .sleep 15,
        .attemptStart 3, .sleep 15], .exhausted "bkt" "repo/f.hg" 3)) ∧
    (upload_to_gcpstorage "bkt" "/tmp/f" "repo/f.hg" (fun _ => .otherErr) =
      ([.attemptStart 1], .propagated)) :=
  ⟨((claim_C1_upload_retry_policy "bkt" "/tmp/f" "repo/f.hg"
      (fun _ => .netErr)).1 (fun _ => rfl)).1,
   ((claim_C1_upload_retry_policy "bkt" "/tmp/f" "repo/f.hg"
      (fun _ => .otherErr)).2.1 rfl).2⟩

/-- Claim C2: for both backends, when the object exists the publish
operation performs only the expiration-refresh action (S3: self-copy with
metadata replacement; GCS: set then clear an event-based hold) and never
transfers the file content; when it does not exist, it uploads the local
file's content to the remote key. -/
theorem claim_C2_upload_idempotent_refresh (bucket local_path remote : String)
    (ex : Bool) :
    upload_to_s3 bucket local_path remote (fun _ => .ok ex) =
      ((if ex then [.attemptStart 1, .copyReplaceMetadata bucket remote]
        else [.attemptStart 1, .uploadFile bucket remote local_path]), .success) ∧
    upload_to_gcpstorage bucket local_path remote (fun _ => .ok ex) =
      ((if ex then [.attemptStart 1, .patchEventHold bucket remote true,
                    .patchEventHold bucket remote false]
        else [.attemptStart 1, .uploadFromFilename bucket remote local_path]),
       .success) ∧
    (ex = true →
      ((upload_to_s3 bucket local_path remote (fun _ => .ok ex)).1.countP
        fun a => a.isContentUpload) = 0 ∧
      ((upload_to_gcpstorage bucket local_path remote (fun _ => .ok ex)).1.countP
        fun a => a.isContentUpload) = 0) := by
  cases ex <;>
    exact ⟨rfl, rfl, fun h => by simp_all [upload_to_s3, upload_to_s3_loop,
      upload_to_gcpstorage, upload_to_gcpstorage_loop, UpAct.isContentUpload]⟩

/-- Claim C2 witness: with the object present at the remote key, the S3
publish is exactly the metadata-refreshing self-copy and transfers no
content. -/
theorem claim_C2_upload_idempotent_refresh_witness :
    upload_to_s3 "bkt" "/tmp/f" "repo/f.hg" (fun _ => .ok true) =
      ([.attemptStart 1, .copyReplaceMetadata "bkt" "repo/f.hg"], .success) ∧
    ((upload_to_s3 "bkt" "/tmp/f" "repo/f.hg" (fun _ => .ok true)).1.countP
      fun a => a.isContentUpload) = 0 :=
  ⟨(claim_C2_upload_idempotent_refresh "bkt" "/tmp/f" "repo/f.hg" true).1,
   ((claim_C2_upload_idempotent_refresh "bkt" "/tmp/f" "repo/f.hg" true).2.2 rfl).1⟩

/-- Claim C3: for bundle-type set `{zstd-max, gzip-v2, packed1}` the
manifest is exactly: the zstd-max group, then the gzip-v2 group, then the
packed1 group, where each group is the CDN-fronted line followed by one
`ec2region=`-annotated line per S3 host in configured order, followed by
one `gceregion=`-annotated line per GCP host. -/
theorem claim_C3_manifest_ordering (root repo tip : String) :
    clonebundles_manifest root repo tip ["zstd-max", "gzip-v2", "packed1"] =
      [cdn_line ((bundle_paths root repo tip "zstd-max").2) "BUNDLESPEC=zstd-v2",
       s3_line "s3-us-west-2.amazonaws.com" "moz-hg-bundles-us-west-2"
         ((bundle_paths root repo tip "zstd-max").2) "BUNDLESPEC=zstd-v2" "us-west-2",
       s3_line "s3-us-west-1.amazonaws.com" "moz-hg-bundles-us-west-1"
         ((bundle_paths root repo tip "zstd-max").2) "BUNDLESPEC=zstd-v2" "us-west-1",
       s3_line "s3-us-east-2.amazonaws.com" "moz-hg-bundles-us-east-2"
         ((bundle_paths root repo tip "zstd-max").2) "BUNDLESPEC=zstd-v2" "us-east-2",
       s3_line "s3-external-1.amazonaws.com" "moz-hg-bundles-us-east-1"
         ((bundle_paths root repo tip "zstd-max").2) "BUNDLESPEC=zstd-v2" "us-east-1",
       s3_line "s3-eu-central-1.amazonaws.com" "moz-hg-bundles-eu-central-1"
         ((bundle_paths root repo tip "zstd-max").2) "BUNDLESPEC=zstd-v2" "eu-central-1",
       gcs_line "moz-hg-bundles-gcp-us-central1"
         ((bundle_paths root repo tip "zstd-max").2) "BUNDLESPEC=zstd-v2" "us-central1",
       cdn_line ((bundle_paths root repo tip "gzip-v2").2) "BUNDLESPEC=gzip-v2",
       s3_line "s3-us-west-2.amazonaws.com" "moz-hg-bundles-us-west-2"
         ((bundle_paths root repo tip "gzip-v2").2) "BUNDLESPEC=gzip-v2" "us-west-2",
       s3_line "s3-us-west-1.amazonaws.com" "moz-hg-bundles-us-west-1"
         ((bundle_paths root repo tip "gzip-v2").2) "BUNDLESPEC=gzip-v2" "us-west-1",
       s3_line "s3-us-east-2.amazonaws.com" "moz-hg-bundles-us-east-2"
         ((bundle_paths root repo tip "gzip-v2").2) "BUNDLESPEC=gzip-v2" "us-east-2",
       s3_line "s3-external-1.amazonaws.com" "moz-hg-bundles-us-east-1"
         ((bundle_paths root repo tip "gzip-v2").2) "BUNDLESPEC=gzip-v2" "us-east-1",
       s3_line "s3-eu-central-1.amazonaws.com" "moz-hg-bundles-eu-central-1"
         ((bundle_paths root repo tip "gzip-v2").2) "BUNDLESPEC=gzip-v2" "eu-central-1",
       gcs_line "moz-hg-bundles-gcp-us-central1"
         ((bundle_paths root repo tip "gzip-v2").2) "BUNDLESPEC=gzip-v2" "us-central1",
       cdn_line ((bundle_paths root repo tip "packed1").2)
         "BUNDLESPEC=none-packed1;requirements%3Dgeneraldelta%2Crevlogv1",
       s3_line "s3-us-west-2.amazonaws.com" "moz-hg-bundles-us-west-2"
         ((bundle_paths root repo tip "packed1").2)
         "BUNDLESPEC=none-packed1;requirements%3Dgeneraldelta%2Crevlogv1" "us-west-2",
       s3_line "s3-us-west-1.amazonaws.com" "moz-hg-bundles-us-west-1"
         ((bundle_paths root repo tip "packed1").2)
         "BUNDLESPEC=none-packed1;requirements%3Dgeneraldelta%2Crevlogv1" "us-west-1",
       s3_line "s3-us-east-2.amazonaws.com" "moz-hg-bundles-us-east-2"
         ((bundle_paths root repo tip "packed1").2)
         "BUNDLESPEC=none-packed1;requirements%3Dgeneraldelta%2Crevlogv1" "us-east-2",
       s3_line "s3-external-1.amazonaws.com" "moz-hg-bundles-us-east-1"
         ((bundle_paths root repo tip "packed1").2)
         "BUNDLESPEC=none-packed1;requirements%3Dgeneraldelta%2Crevlogv1" "us-east-1",
       s3_line "s3-eu-central-1.amazonaws.com" "moz-hg-bundles-eu-central-1"
         ((bundle_paths root repo tip "packed1").2)
         "BUNDLESPEC=none-packed1;requirements%3Dgeneraldelta%2Crevlogv1" "eu-central-1",
       gcs_line "moz-hg-bundles-gcp-us-central1"
         ((bundle_paths root repo tip "packed1").2)
         "BUNDLESPEC=none-packed1;requirements%3Dgeneraldelta%2Crevlogv1" "us-central1"] :=
  rfl


/-- Claim C4: when every relevant bundle type's file already exists at its
resolved final local path, a re-run of primary-mode generation submits no
external-tool bundle-creation invocation, yet the returned `paths`
mapping still records every relevant bundle type. -/
theorem claim_C4_rerun_skips_generation (w : World) (repo : String)
    (upload zstd_max : Bool)
    (habs : startswith repo "/" = false)
    (hgd : w.generaldelta = true)
    (hex : ∀ t ∈ relevant_types zstd_max,
      w.file_exists (bundle_paths (os_path_join BUNDLE_ROOT repo) repo w.tip t).1 = true) :
    generate_bundles w repo upload none zstd_max =
      .ok (generate_bundles_primary w repo upload zstd_max) ∧
    (generate_bundles_primary w repo upload zstd_max).1.filter Act.isGenBundle = [] ∧
    (generate_bundles_primary w repo upload zstd_max).2.map (fun p => p.1) =
      relevant_types zstd_max := by
  refine ⟨by simp [generate_bundles, habs, hgd], ?_, ?_⟩ <;> cases zstd_max
  · have e1 := hex "gzip-v2" (by decide)
    have e2 := hex "zstd" (by decide)
    have e3 := hex "packed1" (by decide)
    cases hu : upload <;>
      cases hm : w.file_exists
        (os_path_join (os_path_join (os_path_join "/repo/hg/mozilla" repo) ".hg")
          "clonebundles.manifest") <;>
      simp [generate_bundles_primary, relevant_creates, CREATES, e1, e2, e3, hm,
            Act.isGenBundle, S3_HOSTS, GCP_HOSTS] <;>
      (intros; subst_vars; rfl)
  · have e1 := hex "gzip-v2" (by decide)
    have e2 := hex "zstd-max" (by decide)
    have e3 := hex "packed1" (by decide)
    cases hu : upload <;>
      cases hm : w.file_exists
        (os_path_join (os_path_join (os_path_join "/repo/hg/mozilla" repo) ".hg")
          "clonebundles.manifest") <;>
      simp [generate_bundles_primary, relevant_creates, CREATES, e1, e2, e3, hm,
            Act.isGenBundle, S3_HOSTS, GCP_HOSTS] <;>
      (intros; subst_vars; rfl)
  · simp [generate_bundles_primary, relevant_creates, relevant_types, CREATES]
  · simp [generate_bundles_primary, relevant_creates, relevant_types, CREATES]

/-- Claim C4 witness: with every file reported as existing, a concrete
re-run submits no generation call and still records all three relevant
types. -/
theorem claim_C4_rerun_skips_generation_witness :
    generate_bundles ⟨fun _ => true, "ffff", true, fun _ => 0, []⟩
        "mozilla-central" true none false =
      .ok (generate_bundles_primary ⟨fun _ => true, "ffff", true, fun _ => 0, []⟩
        "mozilla-central" true false) ∧
    (generate_bundles_primary ⟨fun _ => true, "ffff", true, fun _ => 0, []⟩
        "mozilla-central" true false).1.filter Act.isGenBundle = [] ∧
    (generate_bundles_primary ⟨fun _ => true, "ffff", true, fun _ => 0, []⟩
        "mozilla-central" true false).2.map (fun p => p.1) =
      relevant_types false :=
  claim_C4_rerun_skips_generation ⟨fun _ => true, "ffff", true, fun _ => 0, []⟩
    "mozilla-central" true false (by decide) rfl (fun t _ => rfl)

/-- Claim C5: with copy-from set, `generate_bundles` performs exactly the
mirror sequence: back up the destination manifest when one exists, copy
the source repository's manifest onto the destination, trigger
`hg replicatesync` in the destination repository, and return the empty
result mapping; the trace contains no bundle generation and no upload. -/
theorem claim_C5_mirror_mode (w : World) (repo cf : String) (upload zstd_max : Bool)
    (h1 : startswith repo "/" = false) (h2 : startswith cf "/" = false) :
    generate_bundles w repo upload (some cf) zstd_max =
      .ok (generate_bundles_mirror w repo cf) ∧
    generate_bundles_mirror w repo cf =
      ((if w.file_exists
            (os_path_join (os_path_join (os_path_join "/repo/hg/mozilla" repo) ".hg")
              "clonebundles.manifest") = true
        then [.backupManifest
               (os_path_join (os_path_join (os_path_join "/repo/hg/mozilla" repo) ".hg")
                 "clonebundles.manifest")
               (os_path_join (os_path_join (os_path_join "/repo/hg/mozilla" repo) ".hg")
                 "clonebundles.manifest.last")]
        else []) ++
       [.copyManifest
          (os_path_join (os_path_join (os_path_join "/repo/hg/mozilla" cf) ".hg")
            "clonebundles.manifest")
          (os_path_join (os_path_join (os_path_join "/repo/hg/mozilla" repo) ".hg")
            "clonebundles.manifest"),
        .replicateSync (os_path_join "/repo/hg/mozilla" repo)], []) ∧
    (generate_bundles_mirror w repo cf).1.filter Act.isGenBundle = [] ∧
    (generate_bundles_mirror w repo cf).1.filter Act.isUpload = [] := by
  refine ⟨by simp [generate_bundles, h1, h2], rfl, ?_, ?_⟩ <;>
    cases h : w.file_exists
      (os_path_join (os_path_join (os_path_join "/repo/hg/mozilla" repo) ".hg")
        "clonebundles.manifest") <;>
    simp [generate_bundles_mirror, h, Act.isGenBundle, Act.isUpload]

/-- Claim C5 witness: a concrete mirror-mode run copies the manifest,
replicates, and returns the empty mapping. -/
theorem claim_C5_mirror_mode_witness :
    generate_bundles ⟨fun _ => false, "ffff", true, fun _ => 0, []⟩
        "releases/mirror" true (some "source/repo") false =
      .ok (generate_bundles_mirror ⟨fun _ => false, "ffff", true, fun _ => 0, []⟩
        "releases/mirror" "source/repo") ∧
    (generate_bundles_mirror ⟨fun _ => false, "ffff", true, fun _ => 0, []⟩
        "releases/mirror" "source/repo").1.filter Act.isGenBundle = [] ∧
    (generate_bundles_mirror ⟨fun _ => false, "ffff", true, fun _ => 0, []⟩
        "releases/mirror" "source/repo").1.filter Act.isUpload = [] :=
  ⟨(claim_C5_mirror_mode ⟨fun _ => false, "ffff", true, fun _ => 0, []⟩
      "releases/mirror" "source/repo" true false (by decide) (by decide)).1,
   (claim_C5_mirror_mode ⟨fun _ => false, "ffff", true, fun _ => 0, []⟩
      "releases/mirror" "source/repo" true false (by decide) (by decide)).2.2.1,
   (claim_C5_mirror_mode ⟨fun _ => false, "ffff", true, fun _ => 0, []⟩
      "releases/mirror" "source/repo" true false (by decide) (by decide)).2.2.2⟩

/-- Claim C6: for either value of the max-compression flag, the relevant
bundle-type list contains `zstd-max` exactly when the flag is set,
contains `zstd` exactly when it is not (so never both), and always
contains `gzip-v2` and `packed1`. -/
theorem claim_C6_zstd_mutual_exclusion (z : Bool) :
    ("zstd-max" ∈ relevant_types z ↔ z = true) ∧
    ("zstd" ∈ relevant_types z ↔ z = false) ∧
    ¬("zstd" ∈ relevant_types z ∧ "zstd-max" ∈ relevant_types z) ∧
    "gzip-v2" ∈ relevant_types z ∧ "packed1" ∈ relevant_types z := by
  cases z <;> decide

/-- Claim C7 counterexample: the basename produced by `bundle_paths` is
`revision-tag.type.hg`, not `type.revision-tag.hg` as the claim states;
at a concrete input the claimed pair differs from the computed one. -/
theorem claim_C7_counterexample :
    bundle_paths "/repo/hg/bundles/mozilla-central" "mozilla-central" "abc123" "gzip-v2" ≠
      ("/repo/hg/bundles/mozilla-central/gzip-v2.abc123.hg",
       "mozilla-central/gzip-v2.abc123.hg") ∧
    bundle_paths "/repo/hg/bundles/mozilla-central" "mozilla-central" "abc123" "gzip-v2" =
      ("/repo/hg/bundles/mozilla-central/abc123.gzip-v2.hg",
       "mozilla-central/abc123.gzip-v2.hg") :=
  ⟨by decide, rfl⟩

/-- Claim C7 amended: `bundle_paths` deterministically returns the local
path `root/tag.typ.hg` and the remote key `repo/tag.typ.hg` (basename
`revision-tag.type.hg`, remote key scoped under the repository name),
for any root without a trailing separator and any basename that is not
absolute. -/
theorem claim_C7_bundle_paths_shape (root repo tag typ : String)
    (h1 : endswith root "/" = false) (h2 : (root == "") = false)
    (h3 : startswith (tag ++ "." ++ typ ++ ".hg") "/" = false) :
    bundle_paths root repo tag typ =
      (root ++ "/" ++ (tag ++ "." ++ typ ++ ".hg"),
       repo ++ "/" ++ (tag ++ "." ++ typ ++ ".hg")) := by
  simp [bundle_paths, os_path_join, h1, h2, h3]

/-- Claim C7 amended witness: the shape theorem evaluated at a concrete
input. -/
theorem claim_C7_bundle_paths_shape_witness :
    bundle_paths "/repo/hg/bundles/try" "try" "abc" "zstd" =
      ("/repo/hg/bundles/try/abc.zstd.hg", "try/abc.zstd.hg") := by
  have h := claim_C7_bundle_paths_shape "/repo/hg/bundles/try" "try" "abc" "zstd"
    (by decide) (by decide) (by decide)
  exact h.trans (by decide)

/-- Claim C8 counterexample: `gzip-v2` precedes `zstd` in `CREATES`, yet
with generated types `{gzip-v2, zstd, packed1}` the manifest's first line
is the zstd CDN line and the gzip-v2 CDN line only appears at index 7, so
manifest lines do not follow the relative order of `CREATES`. -/
theorem claim_C8_counterexample :
    (CREATES.map fun c => c.1).indexOf "gzip-v2" <
      (CREATES.map fun c => c.1).indexOf "zstd" ∧
    (clonebundles_manifest "root" "repository" "0tip" (relevant_types false)).head? =
      some ("https://hg.cdn.mozilla.net/repository/0tip.zstd.hg "
              ++ "BUNDLESPEC=zstd-v2 REQUIRESNI=true cdn=true") ∧
    (clonebundles_manifest "root" "repository" "0tip" (relevant_types false))[7]? =
      some ("https://hg.cdn.mozilla.net/repository/0tip.gzip-v2.hg "
              ++ "BUNDLESPEC=gzip-v2 REQUIRESNI=true cdn=true") :=
  ⟨by decide, rfl, rfl⟩

/-- Claim C8 amended: `CREATES` defines which bundle types are generated
(the relevant list is `CREATES` filtered by the zstd/zstd-max
exclusivity), but the manifest lists the generated types in
`CLONEBUNDLES_ORDER`'s relative order: the zstd variant group first, then
gzip-v2, then packed1. -/
theorem claim_C8_manifest_follows_clonebundles_order (z : Bool)
    (root repo tip : String) :
    clonebundles_manifest root repo tip (relevant_types z) =
      clonebundles_lines root repo tip (if z then "zstd-max" else "zstd")
        "BUNDLESPEC=zstd-v2" ++
      clonebundles_lines root repo tip "gzip-v2" "BUNDLESPEC=gzip-v2" ++
      clonebundles_lines root repo tip "packed1"
        "BUNDLESPEC=none-packed1;requirements%3Dgeneraldelta%2Crevlogv1" ∧
    (∀ t ∈ relevant_types z, t ∈ CREATES.map fun c => c.1) := by
  cases z <;> exact ⟨rfl, by decide⟩

/-- Claim C9 counterexample: the configured GCS bucket receives neither
the HTML index nor the JSON manifest, so the artifacts are not uploaded to
every configured storage backend. -/
theorem claim_C9_counterexample :
    "moz-hg-bundles-gcp-us-central1" ∈ GCP_HOSTS.map (fun g => g.1) ∧
    "moz-hg-bundles-gcp-us-central1" ∉ (upload_index "h").map PutObject.bucket ∧
    "moz-hg-bundles-gcp-us-central1" ∉
      (upload_json_manifest "d").map PutObject.bucket := by
  decide

/-- Claim C9 amended: the HTML index and JSON manifest are uploaded to
every configured S3 backend, each with a 60-second cache-control lifetime,
and to no other backend (in particular to no GCS backend). -/
theorem claim_C9_index_uploads_s3_only (html data : String) :
    upload_index html =
      [⟨"moz-hg-bundles-us-west-2", "index.html", html, "text/html", "max-age=60"⟩,
       ⟨"moz-hg-bundles-us-west-1", "index.html", html, "text/html", "max-age=60"⟩,
       ⟨"moz-hg-bundles-us-east-2", "index.html", html, "text/html", "max-age=60"⟩,
       ⟨"moz-hg-bundles-us-east-1", "index.html", html, "text/html", "max-age=60"⟩,
       ⟨"moz-hg-bundles-eu-central-1", "index.html", html, "text/html", "max-age=60"⟩] ∧
    upload_json_manifest data =
      [⟨"moz-hg-bundles-us-west-2", "bundles.json", data, "application/json", "max-age=60"⟩,
       ⟨"moz-hg-bundles-us-west-1", "bundles.json", data, "application/json", "max-age=60"⟩,
       ⟨"moz-hg-bundles-us-east-2", "bundles.json", data, "application/json", "max-age=60"⟩,
       ⟨"moz-hg-bundles-us-east-1", "bundles.json", data, "application/json", "max-age=60"⟩,
       ⟨"moz-hg-bundles-eu-central-1", "bundles.json", data, "application/json", "max-age=60"⟩] ∧
    (upload_index html).map PutObject.bucket = S3_HOSTS.map (fun h => h.2.1) ∧
    (upload_json_manifest data).map PutObject.bucket = S3_HOSTS.map (fun h => h.2.1) :=
  ⟨rfl, rfl, rfl, rfl⟩

/-- Claim C10: the fleet JSON manifest contains a key for a repository
exactly when some entry of the aggregated results pairs that repository
with a non-empty bundle mapping; repositories whose mapping is empty
(mirror repositories) are omitted entirely. -/
theorem claim_C10_json_omits_empty_results
    (repos : List (String × List (String × String × Nat))) (repo : String) :
    repo ∈ (generate_json_manifest repos).map Prod.fst ↔
      ∃ bs, (repo, bs) ∈ repos ∧ bs ≠ [] := by
  constructor
  · intro h
    simp only [generate_json_manifest, List.map_map, List.mem_map,
      List.mem_filter, Function.comp] at h
    obtain ⟨⟨r, bs⟩, ⟨hmem, hne⟩, hr⟩ := h
    exact ⟨bs, by simpa [← hr] using hmem, by simpa using hne⟩
  · rintro ⟨bs, hmem, hne⟩
    simp only [generate_json_manifest, List.map_map, List.mem_map,
      List.mem_filter, Function.comp]
    exact ⟨(repo, bs), ⟨hmem, by simpa using hne⟩, rfl⟩

end GenerateHgS3Bundles
